import Mathlib

/-!
# print-dirs

A verification development for `test-resources/print-dirs.go`:

```go
func main() {
    executable, _ := os.Executable()
    fmt.Fprintln(os.Stdout,"exepath:", executable)
    cwd, _ := os.Getwd()
    fmt.Fprintln(os.Stdout,"workdir:", cwd)
}
```

The program is embedded by explicit state passing over a `World` that holds
the two output streams, the process inputs, the answers the operating system
gives to the two queries, and a ghost trace of the effects performed so far.
Go strings are rendered as Lean strings; `Fprintln` copies its string operands
unchanged, so nothing below depends on how a string is encoded.
-/

namespace PrintDirs

/-- A Go `error` value that is not `nil`. -/
structure GoError where
  msg : String
deriving DecidableEq, Repr

/-- The two standard streams a Go program can write to. -/
inductive File where
  | Stdout
  | Stderr
deriving DecidableEq, Repr

/-- The observable effects of the program, in the order they are performed. -/
inductive Effect where
  | queryExecutable
  | queryGetwd
  | write (f : File) (s : String)
deriving DecidableEq, Repr

/-- The state of the process and of the part of the operating system it can
observe.  `executableAnswer` and `getwdAnswer` are what `os.Executable()` and
`os.Getwd()` return: a string together with an error that is `none` for Go's
`nil`. -/
structure World where
  args : List String
  environ : List (String × String)
  stdin : String
  executableAnswer : String × Option GoError
  getwdAnswer : String × Option GoError
  stdout : String
  stderr : String
  trace : List Effect
deriving DecidableEq, Repr

/-- How a run of `main.main` ends. -/
inductive Termination where
  | returned
  | exited (code : Nat)
  | panicked
deriving DecidableEq, Repr

/-- The exit status the Go runtime reports for each way of ending: `0` after
`main` returns, the argument of `os.Exit`, and `2` after an unrecovered
panic. -/
def Termination.exitCode : Termination → Nat
  | .returned => 0
  | .exited code => code
  | .panicked => 2

/-- Go's `os.Executable()`: asks the operating system for the path of the
running binary and returns it with an error value. -/
def os.Executable (w : World) : (String × Option GoError) × World :=
  (w.executableAnswer, { w with trace := w.trace ++ [Effect.queryExecutable] })

/-- Go's `os.Getwd()`: asks the operating system for the working directory
and returns it with an error value. -/
def os.Getwd (w : World) : (String × Option GoError) × World :=
  (w.getwdAnswer, { w with trace := w.trace ++ [Effect.queryGetwd] })

/-- Go's `os.Stdout`. -/
def os.Stdout : File := File.Stdout

/-- Go's `os.Stderr`. -/
def os.Stderr : File := File.Stderr

/-- The text `fmt.Fprintln` produces for string operands: the operands in
their default format (the string itself), a space between every two
operands, and a newline at the end. -/
def fmt.Sprintln (a : List String) : String :=
  String.intercalate " " a ++ "\n"

/-- Appending text to one of the two streams. -/
def World.append (w : World) (f : File) (s : String) : World :=
  match f with
  | File.Stdout => { w with stdout := w.stdout ++ s, trace := w.trace ++ [Effect.write f s] }
  | File.Stderr => { w with stderr := w.stderr ++ s, trace := w.trace ++ [Effect.write f s] }

/-- Go's `fmt.Fprintln(f, a...)` for string operands: writes the formatted
line to `f` and returns the number of bytes written and a `nil` error. -/
def fmt.Fprintln (f : File) (a : List String) (w : World) : (Nat × Option GoError) × World :=
  (((fmt.Sprintln a).utf8ByteSize, none), w.append f (fmt.Sprintln a))

/-- The program: `func main()` of `print-dirs.go`.  Both error values and both
results of `Fprintln` are dropped, as in the source; the body has no `os.Exit`
and no `panic`, so control falls off its end. -/
def main (w0 : World) : Termination × World :=
  let (executable, _) := (os.Executable w0).1
  let w1 := (os.Executable w0).2
  let w2 := (fmt.Fprintln os.Stdout ["exepath:", executable] w1).2
  let (cwd, _) := (os.Getwd w2).1
  let w3 := (os.Getwd w2).2
  let w4 := (fmt.Fprintln os.Stdout ["workdir:", cwd] w3).2
  (Termination.returned, w4)

/-- The state of a process at start: nothing written yet, no effect
performed yet. -/
def World.start (args : List String) (environ : List (String × String)) (stdin : String)
    (executableAnswer getwdAnswer : String × Option GoError) : World :=
  { args := args, environ := environ, stdin := stdin,
    executableAnswer := executableAnswer, getwdAnswer := getwdAnswer,
    stdout := "", stderr := "", trace := [] }

/-- The text `main` writes to standard output when started in a fresh process
whose two queries answer `exe` and `cwd`. -/
def output (exe cwd : String × Option GoError) : String :=
  (main (World.start [] [] "" exe cwd)).2.stdout

/-- The effects `main` performs when started in `w`: what it adds to the
trace. -/
def performed (w : World) : List Effect :=
  (main w).2.trace.drop w.trace.length

/-- The pieces of text written to stream `f`, in order, among the effects
`t`. -/
def written (f : File) (t : List Effect) : List String :=
  t.filterMap fun e =>
    match e with
    | Effect.write g s => if g = f then some s else none
    | _ => none

/-- The world in which both queries give the same strings as in `w` and
report no error. -/
def World.allSucceed (w : World) : World :=
  { w with executableAnswer := (w.executableAnswer.1, none),
           getwdAnswer := (w.getwdAnswer.1, none) }

/-- The two queries of the program. -/
inductive Query where
  | executable
  | getwd
deriving DecidableEq, Repr

/-- What the operating system answers to a query. -/
def Query.answer (q : Query) (w : World) : String × Option GoError :=
  match q with
  | Query.executable => w.executableAnswer
  | Query.getwd => w.getwdAnswer

/-- The label `main` prints in front of the answer to a query. -/
def Query.label : Query → String
  | Query.executable => "exepath:"
  | Query.getwd => "workdir:"

/-- The position, among the lines `main` writes to standard output, of the
line that reports a query. -/
def Query.position : Query → Nat
  | Query.executable => 0
  | Query.getwd => 1

/-- The line `main` writes to standard output for a query. -/
def Query.line (q : Query) (w : World) : Option String :=
  (written File.Stdout (performed w))[q.position]?

/-- Cutting a text at its newline characters: the pieces between them, so
that a text made of `n` newline-terminated lines gives those `n` lines
followed by one empty piece. -/
def splitNewline : List Char → List (List Char)
  | [] => [[]]
  | c :: cs =>
    if c = '\n' then [] :: splitNewline cs
    else
      match splitNewline cs with
      | [] => [[c]]
      | l :: ls => (c :: l) :: ls

/-- Reading the output back, in the spec's words: the output must be two
newline-terminated lines, the first starting with `exepath: ` and the second
with `workdir: `; the two values are what is left of each line after its
first nine characters. -/
def parseOutput (out : String) : Option (String × String) :=
  match splitNewline out.data with
  | [l1, l2, []] =>
    if "exepath: ".data.isPrefixOf l1 && "workdir: ".data.isPrefixOf l2 then
      some (String.mk (l1.drop 9), String.mk (l2.drop 9))
    else none
  | _ => none

/-! ## Basic facts about `main` -/

theorem main_stdout (w : World) :
    (main w).2.stdout
      = w.stdout ++ "exepath: " ++ w.executableAnswer.1 ++ "\n"
          ++ "workdir: " ++ w.getwdAnswer.1 ++ "\n" := by
  simp only [main, os.Executable, os.Getwd, fmt.Fprintln, fmt.Sprintln, World.append, os.Stdout,
    String.intercalate, String.intercalate.go, String.append_assoc]
  rfl

theorem main_stderr (w : World) : (main w).2.stderr = w.stderr := by
  simp only [main, os.Executable, os.Getwd, fmt.Fprintln, World.append, os.Stdout]

theorem main_termination (w : World) : (main w).1 = Termination.returned := by
  simp only [main]

theorem main_trace (w : World) :
    (main w).2.trace
      = w.trace ++
          [Effect.queryExecutable,
           Effect.write File.Stdout ("exepath: " ++ w.executableAnswer.1 ++ "\n"),
           Effect.queryGetwd,
           Effect.write File.Stdout ("workdir: " ++ w.getwdAnswer.1 ++ "\n")] := by
  simp only [main, os.Executable, os.Getwd, fmt.Fprintln, fmt.Sprintln, World.append, os.Stdout,
    String.intercalate, String.intercalate.go, String.append_assoc, List.append_assoc,
    List.singleton_append, List.cons_append, List.nil_append]
  rfl

theorem performed_eq (w : World) :
    performed w
      = [Effect.queryExecutable,
         Effect.write File.Stdout ("exepath: " ++ w.executableAnswer.1 ++ "\n"),
         Effect.queryGetwd,
         Effect.write File.Stdout ("workdir: " ++ w.getwdAnswer.1 ++ "\n")] := by
  unfold performed
  rw [main_trace, List.drop_left]

theorem output_eq (exe cwd : String × Option GoError) :
    output exe cwd = "exepath: " ++ exe.1 ++ "\n" ++ "workdir: " ++ cwd.1 ++ "\n" := by
  unfold output
  rw [main_stdout]
  simp only [World.start, String.append_assoc]
  exact String.empty_append _

theorem line_eq (q : Query) (w : World) :
    q.line w = some (q.label ++ " " ++ (q.answer w).1 ++ "\n") := by
  unfold Query.line
  rw [performed_eq]
  cases q <;> rfl

theorem line_empty_value (label value : String)
    (h : label ++ " " ++ value ++ "\n" = label ++ " " ++ "\n") : value = "" := by
  have hd := congrArg String.data h
  simp only [String.data_append, List.append_assoc] at hd
  have h1 := List.append_cancel_left (List.append_cancel_left hd)
  have h2 : value.data = [] := List.append_left_eq_self.1 h1
  exact String.ext h2

theorem output_data (exe cwd : String × Option GoError) :
    (output exe cwd).data
      = ("exepath: ".data ++ exe.1.data) ++ '\n' :: (("workdir: ".data ++ cwd.1.data) ++ ['\n']) := by
  rw [output_eq]
  simp only [String.data_append, List.append_assoc]
  rfl

theorem splitNewline_line (l r : List Char) (h : '\n' ∉ l) :
    splitNewline (l ++ '\n' :: r) = l :: splitNewline r := by
  induction l with
  | nil => simp [splitNewline]
  | cons c cs ih =>
    have hc : c ≠ '\n' := fun hc => h (by simp [hc])
    have hcs : '\n' ∉ cs := fun hcs => h (List.mem_cons_of_mem _ hcs)
    simp [splitNewline, hc, ih hcs]

theorem splitNewline_output (exe cwd : String × Option GoError)
    (hexe : '\n' ∉ exe.1.data) (hcwd : '\n' ∉ cwd.1.data) :
    splitNewline (output exe cwd).data
      = ["exepath: ".data ++ exe.1.data, "workdir: ".data ++ cwd.1.data, []] := by
  have h1 : '\n' ∉ "exepath: ".data ++ exe.1.data := by
    intro h
    rcases List.mem_append.1 h with h | h
    · revert h; decide
    · exact hexe h
  have h2 : '\n' ∉ "workdir: ".data ++ cwd.1.data := by
    intro h
    rcases List.mem_append.1 h with h | h
    · revert h; decide
    · exact hcwd h
  rw [output_data, splitNewline_line _ _ h1, splitNewline_line _ _ h2]
  rfl

theorem parseOutput_output (exe cwd : String × Option GoError)
    (hexe : '\n' ∉ exe.1.data) (hcwd : '\n' ∉ cwd.1.data) :
    parseOutput (output exe cwd) = some (exe.1, cwd.1) := by
  unfold parseOutput
  rw [splitNewline_output exe cwd hexe hcwd]
  simp

theorem count_newline_output (exe cwd : String × Option GoError) :
    (output exe cwd).data.count '\n'
      = exe.1.data.count '\n' + cwd.1.data.count '\n' + 2 := by
  have h1 : "exepath: ".data.count '\n' = 0 := by decide
  have h2 : "workdir: ".data.count '\n' = 0 := by decide
  have h3 : ['\n'].count '\n' = 1 := by decide
  rw [output_data, List.count_append, List.count_append, List.count_cons_self,
    List.count_append, List.count_append, h1, h2, h3]
  omega

/-! ## The output format -/

/-- Claim C1: whatever the two queries return, the text `main` adds to standard
output is the label `exepath:`, one space, the executable string unchanged
and a newline, followed by the label `workdir:`, one space, the working
directory string unchanged and a newline; started with the answers
`/home/user/project/print-dirs` and `/home/user/project` the output is the
two lines of the scenario. -/
theorem main_writes_labelled_lines :
    (∀ w : World,
      (main w).2.stdout
        = w.stdout ++ ("exepath: " ++ w.executableAnswer.1 ++ "\n"
            ++ "workdir: " ++ w.getwdAnswer.1 ++ "\n")) ∧
    (∀ exe cwd : String × Option GoError,
      output exe cwd = "exepath: " ++ exe.1 ++ "\n" ++ "workdir: " ++ cwd.1 ++ "\n") ∧
    output ("/home/user/project/print-dirs", none) ("/home/user/project", none)
      = "exepath: /home/user/project/print-dirs\nworkdir: /home/user/project\n" := by
  refine ⟨fun w => ?_, output_eq, by decide⟩
  rw [main_stdout]
  simp only [String.append_assoc]

/-! ## Errors are dropped -/

/-- Claim C3: for every combination of success and failure of the two queries,
`main` returns normally, the exit status is `0`, two lines are written to
standard output, and the run is the same as the run in which both queries
succeed with the same strings: same way of ending, same effects in the same
order, same text on both streams. -/
theorem main_never_surfaces_error (w : World) :
    (main w).1 = Termination.returned ∧
    (main w).1.exitCode = 0 ∧
    (written File.Stdout (performed w)).length = 2 ∧
    (main w).1 = (main w.allSucceed).1 ∧
    performed w = performed w.allSucceed ∧
    (main w).2.stdout = (main w.allSucceed).2.stdout ∧
    (main w).2.stderr = (main w.allSucceed).2.stderr := by
  refine ⟨main_termination w, ?_, ?_, ?_, ?_, ?_, ?_⟩
  · rw [main_termination]; rfl
  · rw [performed_eq]; rfl
  · rw [main_termination, main_termination]
  · rw [performed_eq, performed_eq]; rfl
  · rw [main_stdout, main_stdout]; rfl
  · rw [main_stderr, main_stderr]; rfl

/-! ## Frame: standard error -/

/-- Claim C5: `main` leaves the standard error buffer as it found it, whatever
the two queries answer (errors included), and none of the effects it performs
is a write to standard error. -/
theorem main_stderr_unchanged (w : World) :
    (main w).2.stderr = w.stderr ∧ written File.Stderr (performed w) = [] := by
  refine ⟨main_stderr w, ?_⟩
  rw [performed_eq]
  rfl

/-! ## Independence from the process inputs -/

/-- Claim C6: two fresh runs that differ in their command-line arguments,
environment variables and standard-input contents, and in which the two
queries give the same answers, have the same standard output and the same
exit status (and the same standard error and effects). -/
theorem main_ignores_inputs (args args2 : List String) (environ environ2 : List (String × String))
    (stdin stdin2 : String) (exe cwd : String × Option GoError) :
    (main (World.start args environ stdin exe cwd)).2.stdout
      = (main (World.start args2 environ2 stdin2 exe cwd)).2.stdout ∧
    (main (World.start args environ stdin exe cwd)).1.exitCode
      = (main (World.start args2 environ2 stdin2 exe cwd)).1.exitCode ∧
    (main (World.start args environ stdin exe cwd)).2.stderr
      = (main (World.start args2 environ2 stdin2 exe cwd)).2.stderr ∧
    performed (World.start args environ stdin exe cwd)
      = performed (World.start args2 environ2 stdin2 exe cwd) := by
  refine ⟨?_, ?_, ?_, ?_⟩
  · rw [main_stdout, main_stdout]; rfl
  · rw [main_termination, main_termination]
  · rw [main_stderr, main_stderr]; rfl
  · rw [performed_eq, performed_eq]; rfl

/-! ## Determinism -/

/-- Claim C7: two runs in which the executable-path query returns the same
result and the working-directory query returns the same result, started with
the same standard-output contents, end with identical standard output and
the same exit status. -/
theorem main_deterministic (w1 w2 : World)
    (hexe : w1.executableAnswer = w2.executableAnswer)
    (hcwd : w1.getwdAnswer = w2.getwdAnswer)
    (hout : w1.stdout = w2.stdout) :
    (main w1).2.stdout = (main w2).2.stdout ∧
    (main w1).1.exitCode = (main w2).1.exitCode := by
  refine ⟨?_, ?_⟩
  · rw [main_stdout, main_stdout, hexe, hcwd, hout]
  · rw [main_termination, main_termination]

/-- The determinism theorem at two concrete runs that share the query results
and differ in arguments, environment and standard input. -/
theorem main_deterministic_witness :
    (World.start ["print-dirs"] [("HOME", "/root")] "" ("/bin/print-dirs", none)
        ("/tmp", none)).executableAnswer
      = (World.start [] [] "ignored" ("/bin/print-dirs", none) ("/tmp", none)).executableAnswer ∧
    (World.start ["print-dirs"] [("HOME", "/root")] "" ("/bin/print-dirs", none)
        ("/tmp", none)).getwdAnswer
      = (World.start [] [] "ignored" ("/bin/print-dirs", none) ("/tmp", none)).getwdAnswer ∧
    (World.start ["print-dirs"] [("HOME", "/root")] "" ("/bin/print-dirs", none)
        ("/tmp", none)).stdout
      = (World.start [] [] "ignored" ("/bin/print-dirs", none) ("/tmp", none)).stdout ∧
    (main (World.start ["print-dirs"] [("HOME", "/root")] "" ("/bin/print-dirs", none)
        ("/tmp", none))).2.stdout
      = (main (World.start [] [] "ignored" ("/bin/print-dirs", none) ("/tmp", none))).2.stdout ∧
    (main (World.start ["print-dirs"] [("HOME", "/root")] "" ("/bin/print-dirs", none)
        ("/tmp", none))).1.exitCode
      = (main (World.start [] [] "ignored" ("/bin/print-dirs", none) ("/tmp", none))).1.exitCode :=
  ⟨rfl, rfl, rfl,
    main_deterministic
      (World.start ["print-dirs"] [("HOME", "/root")] "" ("/bin/print-dirs", none) ("/tmp", none))
      (World.start [] [] "ignored" ("/bin/print-dirs", none) ("/tmp", none)) rfl rfl rfl⟩

/-! ## Order of effects -/

/-- Claim C8, as the code has it: every run performs the effects
query executable path, write the exepath line, query working directory,
write the workdir line, in this order and nothing else; each query is
performed once, and each is performed right before the line that prints its
answer. -/
theorem main_effect_order (w : World) :
    (main w).2.trace
      = w.trace ++
          [Effect.queryExecutable,
           Effect.write File.Stdout ("exepath: " ++ w.executableAnswer.1 ++ "\n"),
           Effect.queryGetwd,
           Effect.write File.Stdout ("workdir: " ++ w.getwdAnswer.1 ++ "\n")] ∧
    (performed w).count Effect.queryExecutable = 1 ∧
    (performed w).count Effect.queryGetwd = 1 := by
  refine ⟨main_trace w, ?_, ?_⟩
  · rw [performed_eq]
    simp [List.count_cons]
  · rw [performed_eq]
    simp [List.count_cons]

/-- Claim C8, as stated, fails: in a run whose queries answer
`/bin/print-dirs` and `/tmp`, the working-directory query is not performed
before the first write; the effects are not
query, query, write, write. -/
theorem main_effect_order_not_queries_first :
    performed (World.start [] [] "" ("/bin/print-dirs", none) ("/tmp", none))
      ≠ [Effect.queryExecutable,
         Effect.queryGetwd,
         Effect.write File.Stdout "exepath: /bin/print-dirs\n",
         Effect.write File.Stdout "workdir: /tmp\n"] ∧
    performed (World.start [] [] "" ("/bin/print-dirs", none) ("/tmp", none))
      = [Effect.queryExecutable,
         Effect.write File.Stdout "exepath: /bin/print-dirs\n",
         Effect.queryGetwd,
         Effect.write File.Stdout "workdir: /tmp\n"] := by
  decide

/-! ## What is printed for a failed query -/

/-- Claim C2, as the code has it: for each of the two queries, when the query
reports a failure, the line written for it is its label, one space, the
string the failed query returned alongside its error, unchanged, and a
newline; this line is the label, one space and a newline exactly when that
returned string is empty; and it is the same line as the one written when the
query succeeds with that string. -/
theorem failed_query_prints_returned_string (q : Query) (w : World)
    (hfail : (q.answer w).2 ≠ none) :
    q.line w = some (q.label ++ " " ++ (q.answer w).1 ++ "\n") ∧
    (q.line w = some (q.label ++ " " ++ "\n") ↔ (q.answer w).1 = "") ∧
    q.line w = q.line w.allSucceed := by
  have _ := hfail
  refine ⟨line_eq q w, ?_, ?_⟩
  · rw [line_eq]
    constructor
    · intro h
      exact line_empty_value q.label (q.answer w).1 (Option.some.inj h)
    · intro h
      rw [h, String.append_empty]
  · rw [line_eq, line_eq]
    cases q <;> rfl

/-- The failed-query theorem at a run whose executable-path query fails and
returns `./print-dirs` alongside its error. -/
theorem failed_query_prints_returned_string_witness :
    (Query.executable.answer (World.start [] [] ""
        ("./print-dirs", some (GoError.mk "getwd: no such file or directory"))
        ("", some (GoError.mk "getwd: no such file or directory")))).2 ≠ none ∧
    Query.executable.line (World.start [] [] ""
        ("./print-dirs", some (GoError.mk "getwd: no such file or directory"))
        ("", some (GoError.mk "getwd: no such file or directory")))
      = some "exepath: ./print-dirs\n" ∧
    (Query.executable.line (World.start [] [] ""
        ("./print-dirs", some (GoError.mk "getwd: no such file or directory"))
        ("", some (GoError.mk "getwd: no such file or directory")))
      = some "exepath: \n" ↔ "./print-dirs" = "") ∧
    Query.executable.line (World.start [] [] ""
        ("./print-dirs", some (GoError.mk "getwd: no such file or directory"))
        ("", some (GoError.mk "getwd: no such file or directory")))
      = Query.executable.line (World.start [] [] ""
        ("./print-dirs", some (GoError.mk "getwd: no such file or directory"))
        ("", some (GoError.mk "getwd: no such file or directory"))).allSucceed :=
  ⟨by decide,
    failed_query_prints_returned_string Query.executable
      (World.start [] [] ""
        ("./print-dirs", some (GoError.mk "getwd: no such file or directory"))
        ("", some (GoError.mk "getwd: no such file or directory")))
      (by decide)⟩

/-- Claim C2, as stated, fails: when a query reports a failure and returns a
string that is not empty alongside its error, that string is printed after
the label.  Here the working directory cannot be determined, so both queries
fail; the executable-path query returns the relative path `print-dirs`
alongside its error, and the line written is `exepath: print-dirs`. -/
theorem failed_query_string_is_printed :
    (Query.executable.answer (World.start [] [] ""
        ("print-dirs", some (GoError.mk "getwd: no such file or directory"))
        ("", some (GoError.mk "getwd: no such file or directory")))).2 ≠ none ∧
    Query.executable.line (World.start [] [] ""
        ("print-dirs", some (GoError.mk "getwd: no such file or directory"))
        ("", some (GoError.mk "getwd: no such file or directory")))
      = some "exepath: print-dirs\n" ∧
    Query.executable.line (World.start [] [] ""
        ("print-dirs", some (GoError.mk "getwd: no such file or directory"))
        ("", some (GoError.mk "getwd: no such file or directory")))
      ≠ some "exepath: \n" ∧
    (main (World.start [] [] ""
        ("print-dirs", some (GoError.mk "getwd: no such file or directory"))
        ("", some (GoError.mk "getwd: no such file or directory")))).2.stdout
      = "exepath: print-dirs\nworkdir: \n" := by
  decide

/-! ## The number of lines -/

/-- Claim C4, as the code has it: when neither returned string contains a
newline character, standard output consists of exactly two newline-terminated
lines, the first beginning with `exepath:` and the second with `workdir:`;
it contains exactly two newline characters and no third line. -/
theorem output_two_lines (exe cwd : String × Option GoError)
    (hexe : '\n' ∉ exe.1.data) (hcwd : '\n' ∉ cwd.1.data) :
    ∃ l1 l2 : List Char,
      splitNewline (output exe cwd).data = [l1, l2, []] ∧
      "exepath:".data <+: l1 ∧
      "workdir:".data <+: l2 ∧
      (output exe cwd).data.count '\n' = 2 := by
  refine ⟨"exepath: ".data ++ exe.1.data, "workdir: ".data ++ cwd.1.data,
    splitNewline_output exe cwd hexe hcwd, ?_, ?_, ?_⟩
  · exact ⟨' ' :: exe.1.data, rfl⟩
  · exact ⟨' ' :: cwd.1.data, rfl⟩
  · rw [count_newline_output, List.count_eq_zero_of_not_mem hexe,
      List.count_eq_zero_of_not_mem hcwd]

/-- The two-line theorem at a run whose working-directory query fails with the
empty string. -/
theorem output_two_lines_witness :
    '\n' ∉ ("/bin/print-dirs", (none : Option GoError)).1.data ∧
    '\n' ∉ ("", some (GoError.mk "getwd: no such file or directory")).1.data ∧
    ∃ l1 l2 : List Char,
      splitNewline (output ("/bin/print-dirs", none)
        ("", some (GoError.mk "getwd: no such file or directory"))).data = [l1, l2, []] ∧
      "exepath:".data <+: l1 ∧
      "workdir:".data <+: l2 ∧
      (output ("/bin/print-dirs", none)
        ("", some (GoError.mk "getwd: no such file or directory"))).data.count '\n' = 2 :=
  ⟨by decide, by decide,
    output_two_lines ("/bin/print-dirs", none)
      ("", some (GoError.mk "getwd: no such file or directory")) (by decide) (by decide)⟩

/-- Claim C4, as stated, fails: when the executable path contains a newline
character (here `/tmp/a`, newline, `b`), standard output has three newline
characters and three lines, and its second line is `b`, which does not begin
with `workdir:`. -/
theorem output_three_lines :
    (output ("/tmp/a\nb", none) ("/tmp", none)).data.count '\n' = 3 ∧
    splitNewline (output ("/tmp/a\nb", none) ("/tmp", none)).data
      = ["exepath: /tmp/a".data, "b".data, "workdir: /tmp".data, []] ∧
    ¬ ("workdir:".data <+: "b".data) := by
  refine ⟨by decide, by decide, ?_⟩
  intro h
  have := h.length_le
  revert this
  decide

/-! ## Reading the output back -/

/-- Claim C9: for strings without a newline character, equal outputs come from
equal pairs of values, and reading the output back by taking its two lines
and dropping the nine characters of `exepath: ` and of `workdir: ` gives the
two values. -/
theorem output_parses_back (exe cwd exe2 cwd2 : String) (e1 e2 e3 e4 : Option GoError)
    (hexe : '\n' ∉ exe.data) (hcwd : '\n' ∉ cwd.data)
    (hexe2 : '\n' ∉ exe2.data) (hcwd2 : '\n' ∉ cwd2.data) :
    (output (exe, e1) (cwd, e2) = output (exe2, e3) (cwd2, e4) → exe = exe2 ∧ cwd = cwd2) ∧
    parseOutput (output (exe, e1) (cwd, e2)) = some (exe, cwd) := by
  have h1 := parseOutput_output (exe, e1) (cwd, e2) hexe hcwd
  have h2 := parseOutput_output (exe2, e3) (cwd2, e4) hexe2 hcwd2
  refine ⟨fun h => ?_, h1⟩
  rw [h, h2] at h1
  simpa [eq_comm] using h1

/-- The read-back theorem at a path with a space and a colon and an empty
working directory. -/
theorem output_parses_back_witness :
    '\n' ∉ "/opt/my tools:v2/print-dirs".data ∧ '\n' ∉ "".data ∧
    '\n' ∉ "/opt/my tools:v2/print-dirs".data ∧ '\n' ∉ "".data ∧
    (output ("/opt/my tools:v2/print-dirs", none)
        ("", some (GoError.mk "getwd: no such file or directory"))
      = output ("/opt/my tools:v2/print-dirs", none) ("", none) →
      "/opt/my tools:v2/print-dirs" = "/opt/my tools:v2/print-dirs" ∧ "" = "") ∧
    parseOutput (output ("/opt/my tools:v2/print-dirs", none)
        ("", some (GoError.mk "getwd: no such file or directory")))
      = some ("/opt/my tools:v2/print-dirs", "") :=
  ⟨by decide, by decide, by decide, by decide,
    output_parses_back "/opt/my tools:v2/print-dirs" "" "/opt/my tools:v2/print-dirs" ""
      none (some (GoError.mk "getwd: no such file or directory")) none none
      (by decide) (by decide) (by decide) (by decide)⟩

end PrintDirs
